import Mathlib

/-!
Shallow embedding of the SFCase customer-emotion panel
(src/force-app/main/default/lwc/customerEmotionPanel/customerEmotionPanel.js,
with the persistence-free variant in src/unnamed/part_000 where it differs).

Fields of the JS class become fields of the `Panel` structure; `undefined`
string fields become `Option String` with `none`. The external asynchronous
collaborators (the Apex analysis call, the toolkit conversation-log call,
the message-service subscribe call) are modelled as outcome parameters:
each embedded operation takes the outcome the external call would produce
and is a pure state-transition function that also reports whether the
external call was actually made.
-/

/-- JS `String.prototype.trim`: strip leading and trailing whitespace.
(Defined over the character list so that concrete instances evaluate.) -/
def jsTrim (s : String) : String :=
  String.mk (((s.data.dropWhile Char.isWhitespace).reverse.dropWhile Char.isWhitespace).reverse)

/-- JS `String.prototype.toLowerCase`. -/
def jsToLower (s : String) : String :=
  String.mk (s.data.map Char.toLower)

/-- JS `a || b` on a possibly-undefined string: `undefined` and `""` are
falsy and fall through to `b`. -/
def jsOr (a : Option String) (b : String) : String :=
  match a with
  | some s => if s = "" then b else s
  | none => b

/-- JS truthiness of a possibly-undefined string field. -/
def truthy : Option String → Bool
  | none => false
  | some s => !(s == "")

/-- Panel configuration, lines 31 and 38-44 of customerEmotionPanel.js. -/
structure Config where
  calculateEveryMessage : Bool
  calculateOnSessionEnd : Bool
  showCalculateButton : Bool
deriving DecidableEq

/-- The instance fields of the CustomerEmotionPanel class (lines 14-36).
`receivingSubscription` / `endedSubscription` hold opaque handles, modelled
as `Option Nat`. `toolkitAvailable` models truthiness of `this.toolkit`
and `recordIdPresent` truthiness of `this.recordId`. The retry counter
`_fetchAttempts` is used only by `tryInitialFetch` and is threaded as an
explicit parameter of that loop. -/
structure Panel where
  emotion : Option String
  reason : Option String
  error : Option String
  loaded : Bool
  messages : Option String
  conversationEnded : Bool
  _analyzing : Bool
  config : Config
  receivingSubscription : Option Nat
  endedSubscription : Option Nat
  initialConversationFetched : Bool
  toolkitAvailable : Bool
  recordIdPresent : Bool
deriving DecidableEq

/-- Outcome of the awaited external analysis call
(`analyzeAndPersist` in customerEmotionPanel.js line 174, `analyze` in
part_000 line 114), observed after the string/JSON-parse step:
`ok emotionField reasonField` carries the values of `resp?.emotion` and
`resp?.reason` (`none` = undefined, covering a response with no usable
emotion field, a non-object response, and in part_000 a string that fails
to parse); `err m` is a throw/reject with `m` the resolved message
`e?.body?.message || e.message || 'Error analyzing sentiment'`. -/
inductive AnalyzeOutcome where
  | ok (emotionField : Option String) (reasonField : Option String)
  | err (message : String)
deriving DecidableEq

/-- The result object built at line 180 (`raw` omitted: no claim reads it). -/
structure AnalysisResult where
  emotion : String
  reason : Option String
deriving DecidableEq

/-- The argument object of `runAnalysis` with its defaults, line 150:
`{ force = false, context = 'manual', overrideText } = {}`. -/
structure RunArgs where
  force : Bool := false
  context : String := "manual"
  overrideText : Option String := none
deriving DecidableEq

/-- `runAnalysis`, customerEmotionPanel.js lines 150-191. Returns the new
panel state, the JS return value (`none` = null), and whether the external
analysis call was made. The part_000 variant (lines 98-129) is this
function with no policy block, i.e. the behaviour at `force := true`. -/
def runAnalysis (s : Panel) (a : RunArgs) (outcome : AnalyzeOutcome) :
    Panel × Option AnalysisResult × Bool :=
  let text := jsTrim (jsOr a.overrideText (jsOr s.messages ""))
  if text = "" then
    ({ s with loaded := true }, none, false)
  else if !a.force && (a.context == "message" && !s.config.calculateEveryMessage) then
    (s, none, false)
  else if !a.force && (a.context == "end" && !s.config.calculateOnSessionEnd) then
    (s, none, false)
  else if s._analyzing then
    (s, none, false)
  else
    let s1 := { s with _analyzing := true, loaded := false, error := none }
    match outcome with
    | AnalyzeOutcome.ok em rs =>
        let e := jsToLower (jsOr em "")
        let s2 := { s1 with emotion := some e, reason := rs }
        ({ s2 with loaded := true, _analyzing := false },
         some { emotion := e, reason := rs }, true)
    | AnalyzeOutcome.err m =>
        let s2 := { s1 with error := some m }
        ({ s2 with loaded := true, _analyzing := false }, none, true)

/-- Getter `hasResult`, line 203: `!!this.emotion`. -/
def hasResult (s : Panel) : Bool :=
  truthy s.emotion

/-- The policy block of `runAnalysis` (lines 156-163) as a predicate:
true exactly when one of the two early `return null` branches fires. -/
def policyDenies (a : RunArgs) (cfg : Config) : Bool :=
  !a.force &&
    ((a.context == "message" && !cfg.calculateEveryMessage) ||
     (a.context == "end" && !cfg.calculateOnSessionEnd))

/-- `wiredSession`, lines 56-73: the persisted-record delivery. `data` is
`none` on the error branch (log only); otherwise it carries the values of
the two persisted fields `(LastEmotion__c, LastEmotionReason__c)`. -/
def wiredSession (s : Panel) (data : Option (Option String × Option String)) : Panel :=
  match data with
  | some (persistedEmotion, persistedReason) =>
      if truthy s.emotion then s
      else
        match persistedEmotion with
        | some pe =>
            if pe = "" then s
            else { s with emotion := some (jsToLower pe), reason := persistedReason, loaded := true }
        | none => s
  | none => s

/-- `handleManualCalculate`, lines 193-199. Returns the new state and
whether the external analysis call was made. -/
def handleManualCalculate (s : Panel) (outcome : AnalyzeOutcome) : Panel × Bool :=
  if !truthy s.messages then
    ({ s with error := some "No message text to analyze yet." }, false)
  else
    let r := runAnalysis s { force := true, context := "manual", overrideText := none } outcome
    (r.1, r.2.2)

/-- Outcome of one external `subscribe(...)` call (messageService):
either a fresh handle or a throw. -/
inductive SubscribeOutcome where
  | ok (handle : Nat)
  | throws
deriving DecidableEq

/-- `trySubscribe`, customerEmotionPanel.js lines 104-128 (identically
part_000 lines 39-63). `o1` and `o2` are the outcomes the two subscribe
calls would produce if made. Returns the new state plus two flags: whether
the receiving-channel subscribe call was attempted and whether the
ended-channel one was. Both guarded statements sit in ONE try block, so a
throw in the first aborts the second for that invocation. -/
def trySubscribe (s : Panel) (o1 o2 : SubscribeOutcome) : Panel × Bool × Bool :=
  match s.receivingSubscription with
  | none =>
      match o1 with
      | SubscribeOutcome.throws => (s, true, false)
      | SubscribeOutcome.ok h1 =>
          let s1 := { s with receivingSubscription := some h1 }
          match s1.endedSubscription with
          | none =>
              match o2 with
              | SubscribeOutcome.throws => (s1, true, true)
              | SubscribeOutcome.ok h2 => ({ s1 with endedSubscription := some h2 }, true, true)
          | some _ => (s1, true, false)
  | some _ =>
      match s.endedSubscription with
      | none =>
          match o2 with
          | SubscribeOutcome.throws => (s, false, true)
          | SubscribeOutcome.ok h2 => ({ s with endedSubscription := some h2 }, false, true)
      | some _ => (s, false, false)

/-- `renderedCallback` of the part_000 variant (lines 32-37): the retry
opportunity re-invokes `trySubscribe` only while `receivingSubscription`
is unset. -/
def renderedCallbackV0 (s : Panel) (o1 o2 : SubscribeOutcome) : Panel :=
  if s.receivingSubscription.isNone then (trySubscribe s o1 o2).1 else s

/-- JSON string literal (quote and backslash escaped), for the
`JSON.stringify` at line 244. -/
def jsonString (s : String) : String :=
  "\"" ++ String.join (s.data.map fun c =>
    if c = '"' then "\\\"" else if c = '\\' then "\\\\" else String.singleton c) ++ "\""

/-- One serialized `{content, author}` entry of the message log. -/
def serializeEntry (e : String × String) : String :=
  "\x7b\"content\":" ++ jsonString e.1 ++ ",\"author\":" ++ jsonString e.2 ++ "\x7d"

/-- `JSON.stringify(messageLog)` at line 244: the full-history entries as
one string. -/
def serializeLog (entries : List (String × String)) : String :=
  "[" ++ String.intercalate "," (entries.map serializeEntry) ++ "]"

/-- Outcome of one external `toolkit.getConversationLog` call: a throw, or
a log whose `messages` array holds `(content, name?)` pairs (a null log or
missing `messages` field is `log []`, matching `log?.messages || []`). -/
inductive FetchOutcome where
  | thrown
  | log (msgs : List (String × Option String))
deriving DecidableEq

/-- `fetchFullConversation`, customerEmotionPanel.js lines 226-252.
`fOutcome` is the outcome the external `getConversationLog` call would
produce; `aOutcome` feeds the nested `runAnalysis` on the success path.
Returns the new state, the returned boolean (`got`), and whether the
external `getConversationLog` call was made. -/
def fetchFullConversation (s : Panel) (fOutcome : FetchOutcome) (aOutcome : AnalyzeOutcome) :
    Panel × Bool × Bool :=
  if !s.toolkitAvailable || !s.recordIdPresent then (s, false, false)
  else
    match fOutcome with
    | FetchOutcome.thrown => (s, false, true)
    | FetchOutcome.log msgs =>
        if msgs.length = 0 then (s, false, true)
        else
          let messageLog := msgs.map fun m => (m.1, jsOr m.2 "Unknown")
          let s1 := { s with messages := some (serializeLog messageLog) }
          let r := runAnalysis s1 { force := false, context := "end", overrideText := none } aOutcome
          (r.1, true, true)

/-- `handleConversationEnded`, customerEmotionPanel.js lines 140-148.
Returns the new state and whether the external `getConversationLog` call
was made by the unconditional `fetchFullConversation` it awaits. -/
def handleConversationEnded (s : Panel) (fo : FetchOutcome) (ao1 ao2 : AnalyzeOutcome) :
    Panel × Bool :=
  let s0 := { s with conversationEnded := true }
  let r := fetchFullConversation s0 fo ao1
  let s1 := r.1
  if !hasResult s1 && truthy s1.messages then
    let r2 := runAnalysis s1 { force := false, context := "end", overrideText := none } ao2
    (r2.1, r.2.2)
  else (s1, r.2.2)

/-- `MAX_FETCH_ATTEMPTS`, line 36. -/
def MAX_FETCH_ATTEMPTS : Nat := 5

/-- `tryInitialFetch`, customerEmotionPanel.js lines 92-102, run to
quiescence: each round awaits `fetchFullConversation`; on `got` it marks
`_initialConversationFetched`; otherwise, while `_fetchAttempts` is below
`MAX_FETCH_ATTEMPTS`, it increments the counter and schedules the next
round after `300 * _fetchAttempts` ms. `fo n` / `ao n` are the external
outcomes of round `n`; `fetchAttempts` threads the `_fetchAttempts` field.
Returns the final state, the final `_fetchAttempts`, the number of
external `getConversationLog` calls made, and the list of scheduled
delays. -/
def tryInitialFetch (fo : Nat → FetchOutcome) (ao : Nat → AnalyzeOutcome)
    (s : Panel) (fetchAttempts round : Nat) : Panel × Nat × Nat × List Nat :=
  let r := fetchFullConversation s (fo round) (ao round)
  let calls := if r.2.2 then 1 else 0
  if r.2.1 then
    ({ r.1 with initialConversationFetched := true }, fetchAttempts, calls, [])
  else if h : fetchAttempts < MAX_FETCH_ATTEMPTS then
    let next := tryInitialFetch fo ao r.1 (fetchAttempts + 1) (round + 1)
    (next.1, next.2.1, calls + next.2.2.1, 300 * (fetchAttempts + 1) :: next.2.2.2)
  else (r.1, fetchAttempts, calls, [])
  termination_by MAX_FETCH_ATTEMPTS - fetchAttempts
  decreasing_by omega

/-- A reachable quiescent state of the panel: configuration delivered with
all flags false, one inbound message buffered, no analysis in flight. -/
def basePanel : Panel where
  emotion := none
  reason := none
  error := none
  loaded := true
  messages := some "hello there"
  conversationEnded := false
  _analyzing := false
  config := { calculateEveryMessage := false, calculateOnSessionEnd := false,
              showCalculateButton := false }
  receivingSubscription := none
  endedSubscription := none
  initialConversationFetched := false
  toolkitAvailable := true
  recordIdPresent := true

/-- The panel observed while an analysis call is in flight: step 4 of
`runAnalysis` has run, so `_analyzing = true` and `loaded = false`. -/
def inFlightPanel : Panel :=
  { basePanel with _analyzing := true, loaded := false }

/-- The in-flight state at a moment when the buffer is still unset
(`messages = undefined`), as after `connectedCallback` and a forced
analysis on override text. -/
def emptyBufferInFlightPanel : Panel :=
  { basePanel with messages := none, _analyzing := true, loaded := false }

/-- The panel after a successful full-history fetch and analysis:
`_initialConversationFetched` is set, the serialized log is buffered, and
an emotion is stored. -/
def postSuccessPanel : Panel :=
  { basePanel with
      emotion := some "positive"
      messages := some (serializeLog [("hi", "Ana")])
      initialConversationFetched := true }

/-- The panel after the receiving-channel subscribe succeeded while the
ended-channel one threw: one handle held, one missing. -/
def halfSubscribedPanel : Panel :=
  { basePanel with receivingSubscription := some 1 }

/-- The panel with a buffered text that is non-empty but all whitespace,
observed with `loaded` still false. -/
def whitespacePanel : Panel :=
  { basePanel with messages := some " ", loaded := false }

/-- The panel already seeded or analyzed: an emotion is set. -/
def seededPanel : Panel :=
  { basePanel with emotion := some "positive" }

/-- The number of retry delays scheduled by rounds `a+1, a+2, ...` of
`tryInitialFetch`: round `a+1` is scheduled after `300 * (a+1)`. -/
def backoffDelays : Nat → Nat → List Nat
  | _, 0 => []
  | a, k + 1 => 300 * (a + 1) :: backoffDelays (a + 1) k

example :
    (runAnalysis basePanel { force := true, context := "manual", overrideText := none }
      (AnalyzeOutcome.ok (some "HAPPY") none)).1.emotion = some "happy" := by decide

/-- If a possibly-undefined string is JS-falsy, `a || b` yields `b`. -/
theorem jsOr_of_not_truthy (a : Option String) (b : String) (h : truthy a = false) :
    jsOr a b = b := by
  cases a with
  | none => rfl
  | some s =>
      simp only [truthy, Bool.not_eq_false', beq_iff_eq] at h
      simp [jsOr, h]

/-- With the toolkit and record id present, a fetch round whose external
call yields an empty log or throws makes the call, changes nothing, and
returns false. -/
theorem fetchFullConversation_empty (s : Panel) (fo : FetchOutcome) (ao : AnalyzeOutcome)
    (htk : s.toolkitAvailable = true) (hrid : s.recordIdPresent = true)
    (hfo : fo = FetchOutcome.log [] ∨ fo = FetchOutcome.thrown) :
    fetchFullConversation s fo ao = (s, false, true) := by
  rcases hfo with h | h <;> subst h <;> simp [fetchFullConversation, htk, hrid]

/-- Against a source that always yields an empty log or a failure, the
retry loop runs `MAX_FETCH_ATTEMPTS - fetchAttempts + 1` rounds, drives
the counter to `MAX_FETCH_ATTEMPTS`, and schedules linearly growing
delays. -/
theorem tryInitialFetch_drained (fo : Nat → FetchOutcome) (ao : Nat → AnalyzeOutcome)
    (hfo : ∀ n, fo n = FetchOutcome.log [] ∨ fo n = FetchOutcome.thrown)
    (s : Panel) (htk : s.toolkitAvailable = true) (hrid : s.recordIdPresent = true) :
    ∀ k fetchAttempts round, MAX_FETCH_ATTEMPTS - fetchAttempts = k →
      fetchAttempts ≤ MAX_FETCH_ATTEMPTS →
      tryInitialFetch fo ao s fetchAttempts round =
        (s, MAX_FETCH_ATTEMPTS, k + 1, backoffDelays fetchAttempts k) := by
  intro k
  induction k with
  | zero =>
      intro fa round hk hle
      have ha : fa = MAX_FETCH_ATTEMPTS := by omega
      subst ha
      rw [tryInitialFetch]
      rw [fetchFullConversation_empty s (fo round) (ao round) htk hrid (hfo round)]
      simp [backoffDelays]
  | succ k ih =>
      intro fa round hk hle
      rw [tryInitialFetch]
      rw [fetchFullConversation_empty s (fo round) (ao round) htk hrid (hfo round)]
      have hlt : fa < MAX_FETCH_ATTEMPTS := by omega
      simp only [dif_pos hlt]
      rw [ih (fa + 1) (round + 1) (by omega) (by omega)]
      simp [backoffDelays, Nat.add_comm]

/-- Whatever the external outcomes, the `_fetchAttempts` counter never
leaves `tryInitialFetch` above `MAX_FETCH_ATTEMPTS` when it entered at or
below it. -/
theorem tryInitialFetch_le (fo : Nat → FetchOutcome) (ao : Nat → AnalyzeOutcome) :
    ∀ k (s : Panel) fetchAttempts round, MAX_FETCH_ATTEMPTS - fetchAttempts = k →
      fetchAttempts ≤ MAX_FETCH_ATTEMPTS →
      (tryInitialFetch fo ao s fetchAttempts round).2.1 ≤ MAX_FETCH_ATTEMPTS := by
  intro k
  induction k with
  | zero =>
      intro s fa round hk hle
      rw [tryInitialFetch]
      dsimp only
      split_ifs <;> first
        | exact hle
        | omega
  | succ k ih =>
      intro s fa round hk hle
      rw [tryInitialFetch]
      dsimp only
      split_ifs <;> first
        | exact hle
        | exact ih (fetchFullConversation s (fo round) (ao round)).1
            (fa + 1) (round + 1) (by omega) (by omega)

/-- If the resolved trimmed text is empty, `runAnalysis` takes the early
return at lines 152-155: it sets `loaded := true`, returns null, and makes
no external call. -/
theorem runAnalysis_emptyText (s : Panel) (a : RunArgs) (o : AnalyzeOutcome)
    (htext : jsTrim (jsOr a.overrideText (jsOr s.messages "")) = "") :
    runAnalysis s a o = ({ s with loaded := true }, none, false) := by
  unfold runAnalysis
  dsimp only
  rw [if_pos htext]

/-- If the resolved trimmed text is non-empty and either the policy block
fires or an analysis is in flight, `runAnalysis` returns null with the
state untouched and makes no external call. -/
theorem runAnalysis_dropped (s : Panel) (a : RunArgs) (o : AnalyzeOutcome)
    (htext : jsTrim (jsOr a.overrideText (jsOr s.messages "")) ≠ "")
    (h : policyDenies a s.config = true ∨ s._analyzing = true) :
    runAnalysis s a o = (s, none, false) := by
  unfold runAnalysis
  dsimp only
  rw [if_neg htext]
  split_ifs with h1 h2 h3
  · rfl
  · rfl
  · rfl
  · exfalso
    rcases h with hp | ha
    · simp only [policyDenies, Bool.and_eq_true, Bool.or_eq_true] at hp
      rcases hp with ⟨hf, hc | hc⟩
      · exact h1 (by simp [hf, hc.1, hc.2])
      · exact h2 (by simp [hf, hc.1, hc.2])
    · exact h3 ha

/-- If the resolved trimmed text is non-empty, the policy block does not
fire and no analysis is in flight, `runAnalysis` makes the external call
and finishes with the cleanup of the finally block applied. -/
theorem runAnalysis_proceeds (s : Panel) (a : RunArgs) (o : AnalyzeOutcome)
    (htext : jsTrim (jsOr a.overrideText (jsOr s.messages "")) ≠ "")
    (hpol : policyDenies a s.config = false) (hana : s._analyzing = false) :
    runAnalysis s a o =
      match o with
      | AnalyzeOutcome.ok em rs =>
          ({ s with
              _analyzing := false
              loaded := true
              error := none
              emotion := some (jsToLower (jsOr em ""))
              reason := rs },
           some { emotion := jsToLower (jsOr em ""), reason := rs }, true)
      | AnalyzeOutcome.err m =>
          ({ s with _analyzing := false, loaded := true, error := some m }, none, true) := by
  have hsplit : ∀ x y z : Bool, (x && (y || z)) = false → (x && y) = false ∧ (x && z) = false := by
    decide
  simp only [policyDenies] at hpol
  have hc := hsplit _ _ _ hpol
  unfold runAnalysis
  dsimp only
  rw [if_neg htext, if_neg (by simp [hc.1]), if_neg (by simp [hc.2]), if_neg (by simp [hana])]

/-- If the external analysis call was made, the finally block has run:
`_analyzing = false` and `loaded = true` afterwards. -/
theorem runAnalysis_made_cleanup (s : Panel) (a : RunArgs) (o : AnalyzeOutcome)
    (h : (runAnalysis s a o).2.2 = true) :
    (runAnalysis s a o).1._analyzing = false ∧ (runAnalysis s a o).1.loaded = true := by
  by_cases htext : jsTrim (jsOr a.overrideText (jsOr s.messages "")) = ""
  · rw [runAnalysis_emptyText s a o htext] at h
    simp at h
  · by_cases hpol : policyDenies a s.config = true
    · rw [runAnalysis_dropped s a o htext (Or.inl hpol)] at h
      simp at h
    · by_cases hana : s._analyzing = true
      · rw [runAnalysis_dropped s a o htext (Or.inr hana)] at h
        simp at h
      · rw [runAnalysis_proceeds s a o htext (by simpa using hpol) (by simpa using hana)]
        cases o <;> exact ⟨rfl, rfl⟩

/-- A persisted-record delivery while an emotion is already set (JS-truthy)
changes nothing. -/
theorem wiredSession_already_set (s : Panel) (d : Option (Option String × Option String))
    (h : truthy s.emotion = true) :
    wiredSession s d = s := by
  cases d with
  | none => rfl
  | some p =>
      obtain ⟨pe, pr⟩ := p
      simp [wiredSession, h]

/-- A persisted-record delivery with a truthy persisted emotion, arriving
while no emotion is set, seeds `emotion` (lower-cased) and `reason` and
sets `loaded`. -/
theorem wiredSession_seeds (s : Panel) (pe : String) (pr : Option String)
    (h : truthy s.emotion = false) (hpe : pe ≠ "") :
    wiredSession s (some (some pe, pr)) =
      { s with emotion := some (jsToLower pe), reason := pr, loaded := true } := by
  simp [wiredSession, h, hpe]

/-- With the toolkit and record id present, `fetchFullConversation` always
performs the external `getConversationLog` call: there is no idempotency
guard on its entry path. -/
theorem fetchFullConversation_made (s : Panel) (fo : FetchOutcome) (ao : AnalyzeOutcome)
    (htk : s.toolkitAvailable = true) (hrid : s.recordIdPresent = true) :
    (fetchFullConversation s fo ao).2.2 = true := by
  unfold fetchFullConversation
  rw [htk, hrid]
  cases fo with
  | thrown => rfl
  | log msgs =>
      by_cases hlen : msgs.length = 0 <;> simp [hlen]

/-- If the receiving channel has no handle and its subscribe call throws,
the catch swallows the error with nothing recorded, and the ended-channel
subscribe is never reached in that invocation. -/
theorem trySubscribe_first_throws (s : Panel) (o2 : SubscribeOutcome)
    (h : s.receivingSubscription = none) :
    trySubscribe s SubscribeOutcome.throws o2 = (s, true, false) := by
  simp [trySubscribe, h]

/-- A held receiving-channel handle is never re-subscribed or replaced. -/
theorem trySubscribe_receiving_held (s : Panel) (o1 o2 : SubscribeOutcome) (h1 : Nat)
    (h : s.receivingSubscription = some h1) :
    (trySubscribe s o1 o2).1.receivingSubscription = some h1
    ∧ (trySubscribe s o1 o2).2.1 = false := by
  rcases he : s.endedSubscription with _ | h2 <;> cases o2 <;> simp [trySubscribe, h, he]

/-- A held ended-channel handle is never re-subscribed or replaced. -/
theorem trySubscribe_ended_held (s : Panel) (o1 o2 : SubscribeOutcome) (h2 : Nat)
    (h : s.endedSubscription = some h2) :
    (trySubscribe s o1 o2).1.endedSubscription = some h2
    ∧ (trySubscribe s o1 o2).2.2 = false := by
  rcases hr : s.receivingSubscription with _ | h1 <;> cases o1 <;> simp [trySubscribe, hr, h]

/-- A missing receiving-channel handle is always attempted. -/
theorem trySubscribe_receiving_attempted (s : Panel) (o1 o2 : SubscribeOutcome)
    (h : s.receivingSubscription = none) :
    (trySubscribe s o1 o2).2.1 = true := by
  cases o1 <;> rcases he : s.endedSubscription with _ | h2 <;> cases o2 <;>
    simp [trySubscribe, h, he]

/-- A missing ended-channel handle is attempted whenever the receiving
channel already holds its handle. -/
theorem trySubscribe_ended_attempted (s : Panel) (o1 o2 : SubscribeOutcome) (h1 : Nat)
    (hr : s.receivingSubscription = some h1) (he : s.endedSubscription = none) :
    (trySubscribe s o1 o2).2.2 = true := by
  cases o2 <;> simp [trySubscribe, hr, he]

/-- The part_000 render retry fires only while the receiving channel has
no handle: with it held, the render opportunity does nothing at all. -/
theorem renderedCallbackV0_no_retry (s : Panel) (o1 o2 : SubscribeOutcome) (h1 : Nat)
    (hr : s.receivingSubscription = some h1) :
    renderedCallbackV0 s o1 o2 = s := by
  simp [renderedCallbackV0, hr]

/-- C1: while an analysis is in flight (`_analyzing = true`), every further
`runAnalysis` call returns null and makes no external analysis call, so
such a burst performs exactly the one in-flight external call; the state
is left untouched except that a later call whose resolved trimmed text is
empty sets `loaded := true`. -/
theorem runAnalysis_single_flight (s : Panel) (a : RunArgs) (o : AnalyzeOutcome)
    (h : s._analyzing = true) :
    (runAnalysis s a o).2.1 = none ∧ (runAnalysis s a o).2.2 = false ∧
      (runAnalysis s a o).1 =
        (if jsTrim (jsOr a.overrideText (jsOr s.messages "")) = ""
         then { s with loaded := true } else s) := by
  by_cases htext : jsTrim (jsOr a.overrideText (jsOr s.messages "")) = ""
  · rw [runAnalysis_emptyText s a o htext, if_pos htext]
    exact ⟨rfl, rfl, rfl⟩
  · rw [runAnalysis_dropped s a o htext (Or.inr h), if_neg htext]
    exact ⟨rfl, rfl, rfl⟩

/-- C1 witness: the single-flight theorem at the concrete in-flight state
with a message-context call. -/
theorem runAnalysis_single_flight_witness :
    (runAnalysis inFlightPanel { force := false, context := "message", overrideText := none }
        (AnalyzeOutcome.ok (some "positive") none)).2.1 = none
    ∧ (runAnalysis inFlightPanel { force := false, context := "message", overrideText := none }
        (AnalyzeOutcome.ok (some "positive") none)).2.2 = false
    ∧ (runAnalysis inFlightPanel { force := false, context := "message", overrideText := none }
        (AnalyzeOutcome.ok (some "positive") none)).1 =
        (if jsTrim (jsOr none (jsOr inFlightPanel.messages "")) = ""
         then { inFlightPanel with loaded := true } else inFlightPanel) :=
  runAnalysis_single_flight inFlightPanel
    { force := false, context := "message", overrideText := none }
    (AnalyzeOutcome.ok (some "positive") none) rfl

/-- C1 counterexample: a `runAnalysis` call issued while an analysis is in
flight, carrying whitespace-only override text, mutates panel state: the
empty-text early return (which precedes the single-flight guard) sets
`loaded := true`, flipping it from the in-flight value false. -/
theorem runAnalysis_single_flight_counterexample :
    inFlightPanel._analyzing = true
    ∧ inFlightPanel.loaded = false
    ∧ (runAnalysis inFlightPanel { force := false, context := "manual", overrideText := some " " }
        (AnalyzeOutcome.ok (some "positive") none)).1.loaded = true
    ∧ (runAnalysis inFlightPanel { force := false, context := "manual", overrideText := some " " }
        (AnalyzeOutcome.ok (some "positive") none)).1 ≠ inFlightPanel := by
  decide

/-- C2: entered outside an in-flight analysis, the exits of `runAnalysis`
among success, failure and the empty-trimmed-text early return leave
`_analyzing = false` and `loaded = true` (for the success/failure exits
this holds regardless of entry state); a call returning early on policy
denial or on the single-flight guard returns null with the whole state
untouched. -/
theorem runAnalysis_cleanup_invariant (s : Panel) (a : RunArgs) (o : AnalyzeOutcome) :
    (s._analyzing = false → jsTrim (jsOr a.overrideText (jsOr s.messages "")) = "" →
       (runAnalysis s a o).1._analyzing = false ∧ (runAnalysis s a o).1.loaded = true)
    ∧ ((runAnalysis s a o).2.2 = true →
       (runAnalysis s a o).1._analyzing = false ∧ (runAnalysis s a o).1.loaded = true)
    ∧ (jsTrim (jsOr a.overrideText (jsOr s.messages "")) ≠ "" →
       (policyDenies a s.config = true ∨ s._analyzing = true) →
       runAnalysis s a o = (s, none, false)) := by
  refine ⟨?_, runAnalysis_made_cleanup s a o, runAnalysis_dropped s a o⟩
  intro hana htext
  rw [runAnalysis_emptyText s a o htext]
  exact ⟨hana, rfl⟩

/-- C2 witness: the cleanup theorem at the base state for a failed forced
analysis: the finally block restores the flags. -/
theorem runAnalysis_cleanup_invariant_witness :
    (runAnalysis basePanel { force := true, context := "manual", overrideText := none }
        (AnalyzeOutcome.err "boom")).1._analyzing = false
    ∧ (runAnalysis basePanel { force := true, context := "manual", overrideText := none }
        (AnalyzeOutcome.err "boom")).1.loaded = true :=
  (runAnalysis_cleanup_invariant basePanel
      { force := true, context := "manual", overrideText := none }
      (AnalyzeOutcome.err "boom")).2.1 (by decide)

/-- C2 counterexample: the empty-trimmed-text early return does not restore
`_analyzing` when the call is issued while an analysis is in flight: at a
state with `_analyzing = true` and an unset buffer, the call exits on the
empty-text path (returning null and setting `loaded`) with `_analyzing`
still true afterwards, where the claim requires false. -/
theorem runAnalysis_cleanup_counterexample :
    (runAnalysis emptyBufferInFlightPanel
        { force := false, context := "manual", overrideText := none }
        (AnalyzeOutcome.ok (some "positive") none)).2.1 = none
    ∧ (runAnalysis emptyBufferInFlightPanel
        { force := false, context := "manual", overrideText := none }
        (AnalyzeOutcome.ok (some "positive") none)).1.loaded = true
    ∧ (runAnalysis emptyBufferInFlightPanel
        { force := false, context := "manual", overrideText := none }
        (AnalyzeOutcome.ok (some "positive") none)).1._analyzing = true := by
  decide

/-- C3: with non-empty resolved text and no analysis in flight, the
external call is made exactly when the inline policy block does not fire;
message and end contexts are gated by their configuration flags, but any
other context proceeds without force: the policy fails open for unknown
context tags. -/
theorem runAnalysis_policy_fails_open (s : Panel) (a : RunArgs) (o : AnalyzeOutcome)
    (hana : s._analyzing = false)
    (htext : jsTrim (jsOr a.overrideText (jsOr s.messages "")) ≠ "") :
    (runAnalysis s a o).2.2 = !policyDenies a s.config
    ∧ (a.force = false → a.context ≠ "message" → a.context ≠ "end" →
        (runAnalysis s a o).2.2 = true) := by
  have hmain : (runAnalysis s a o).2.2 = !policyDenies a s.config := by
    by_cases hpol : policyDenies a s.config = true
    · rw [runAnalysis_dropped s a o htext (Or.inl hpol), hpol]
      rfl
    · have hp : policyDenies a s.config = false := by simpa using hpol
      rw [runAnalysis_proceeds s a o htext hp hana, hp]
      cases o <;> rfl
  refine ⟨hmain, fun hf hm he => ?_⟩
  have h1 : (a.context == "message") = false := beq_eq_false_iff_ne.mpr hm
  have h2 : (a.context == "end") = false := beq_eq_false_iff_ne.mpr he
  rw [hmain]
  simp [policyDenies, hf, h1, h2]

/-- C3 witness: the policy theorem at the base state for a message-context
call and for an unknown-context call. -/
theorem runAnalysis_policy_fails_open_witness :
    (runAnalysis basePanel { force := false, context := "message", overrideText := none }
        (AnalyzeOutcome.ok (some "positive") none)).2.2
      = !policyDenies { force := false, context := "message", overrideText := none }
          basePanel.config
    ∧ (runAnalysis basePanel { force := false, context := "other", overrideText := none }
        (AnalyzeOutcome.ok (some "positive") none)).2.2 = true :=
  ⟨(runAnalysis_policy_fails_open basePanel
      { force := false, context := "message", overrideText := none }
      (AnalyzeOutcome.ok (some "positive") none) rfl (by decide)).1,
   (runAnalysis_policy_fails_open basePanel
      { force := false, context := "other", overrideText := none }
      (AnalyzeOutcome.ok (some "positive") none) rfl (by decide)).2 rfl (by decide) (by decide)⟩

/-- C3 counterexample: an unknown context tag with `force = false` is not
policy-denied: at the base state (both gating flags false, non-empty
buffer, idle) a `runAnalysis` call with context `bogus` makes the
external analysis call and returns a result, where the claim requires a
denial with no call. -/
theorem runAnalysis_policy_counterexample :
    basePanel.config.calculateEveryMessage = false
    ∧ basePanel.config.calculateOnSessionEnd = false
    ∧ (runAnalysis basePanel { force := false, context := "bogus", overrideText := none }
        (AnalyzeOutcome.ok (some "positive") none)).2.2 = true
    ∧ (runAnalysis basePanel { force := false, context := "bogus", overrideText := none }
        (AnalyzeOutcome.ok (some "positive") none)).2.1 ≠ none := by
  decide

/-- A log source that always yields an empty message list. -/
def emptyLogSource : Nat → FetchOutcome := fun _ => FetchOutcome.log []

/-- An analysis source that always succeeds with `positive`. -/
def okAnalysisSource : Nat → AnalyzeOutcome := fun _ => AnalyzeOutcome.ok (some "positive") none

/-- C4: against a source that always returns an empty log or always fails,
the initial-fetch loop started at counter 0 performs exactly
`MAX_FETCH_ATTEMPTS + 1 = 6` external fetch calls (the initial one plus
five retries), ends with the counter at `MAX_FETCH_ATTEMPTS`, and
schedules the five retries after delays `300 * attempt`; whatever the
source, the counter never leaves the loop above `MAX_FETCH_ATTEMPTS`. -/
theorem tryInitialFetch_bounded (fo : Nat → FetchOutcome) (ao : Nat → AnalyzeOutcome)
    (hfo : ∀ n, fo n = FetchOutcome.log [] ∨ fo n = FetchOutcome.thrown)
    (s : Panel) (htk : s.toolkitAvailable = true) (hrid : s.recordIdPresent = true) :
    tryInitialFetch fo ao s 0 0 =
      (s, MAX_FETCH_ATTEMPTS, MAX_FETCH_ATTEMPTS + 1, [300, 600, 900, 1200, 1500])
    ∧ ∀ (fo2 : Nat → FetchOutcome) (ao2 : Nat → AnalyzeOutcome) (s2 : Panel)
        (fetchAttempts round : Nat), fetchAttempts ≤ MAX_FETCH_ATTEMPTS →
        (tryInitialFetch fo2 ao2 s2 fetchAttempts round).2.1 ≤ MAX_FETCH_ATTEMPTS := by
  constructor
  · have h := tryInitialFetch_drained fo ao hfo s htk hrid 5 0 0 (by decide) (by decide)
    rw [h]
    rfl
  · intro fo2 ao2 s2 fa round hle
    exact tryInitialFetch_le fo2 ao2 (MAX_FETCH_ATTEMPTS - fa) s2 fa round rfl hle

/-- C4 witness: the bounded-retry theorem at the always-empty source and
the base state. -/
theorem tryInitialFetch_bounded_witness :
    tryInitialFetch emptyLogSource okAnalysisSource basePanel 0 0 =
      (basePanel, MAX_FETCH_ATTEMPTS, MAX_FETCH_ATTEMPTS + 1, [300, 600, 900, 1200, 1500])
    ∧ (tryInitialFetch emptyLogSource okAnalysisSource basePanel 3 0).2.1
        ≤ MAX_FETCH_ATTEMPTS :=
  have h := tryInitialFetch_bounded emptyLogSource okAnalysisSource
    (fun _ => Or.inl rfl) basePanel rfl rfl
  ⟨h.1, h.2 emptyLogSource okAnalysisSource basePanel 3 0 (by decide)⟩

/-- C4 counterexample: with the always-empty source the loop makes six
external fetch calls, not the five the claim states. -/
theorem tryInitialFetch_count_counterexample :
    (tryInitialFetch emptyLogSource okAnalysisSource basePanel 0 0).2.2.1 = 6
    ∧ (6 : Nat) ≠ 5 := by
  constructor
  · have h := tryInitialFetch_drained emptyLogSource okAnalysisSource
      (fun _ => Or.inl rfl) basePanel rfl rfl 5 0 0 (by decide) (by decide)
    rw [h]
  · decide

/-- C5: there is no idempotency guard on fetching: whenever the toolkit
and record id are present, `fetchFullConversation` performs the external
`getConversationLog` call — also on the conversation-ended path — however
the state is, in particular after an earlier successful fetch. -/
theorem fetch_no_idempotency_guard (s : Panel) (fo : FetchOutcome)
    (ao ao1 ao2 : AnalyzeOutcome)
    (htk : s.toolkitAvailable = true) (hrid : s.recordIdPresent = true) :
    (fetchFullConversation s fo ao).2.2 = true
    ∧ (handleConversationEnded s fo ao1 ao2).2 = true := by
  constructor
  · exact fetchFullConversation_made s fo ao htk hrid
  · unfold handleConversationEnded
    dsimp only
    split_ifs <;>
      exact fetchFullConversation_made { s with conversationEnded := true } fo ao1 htk hrid

/-- C5 witness: the no-guard theorem at the base state. -/
theorem fetch_no_idempotency_guard_witness :
    (fetchFullConversation basePanel FetchOutcome.thrown
        (AnalyzeOutcome.ok (some "positive") none)).2.2 = true
    ∧ (handleConversationEnded basePanel FetchOutcome.thrown
        (AnalyzeOutcome.ok (some "positive") none)
        (AnalyzeOutcome.ok (some "positive") none)).2 = true :=
  fetch_no_idempotency_guard basePanel FetchOutcome.thrown
    (AnalyzeOutcome.ok (some "positive") none)
    (AnalyzeOutcome.ok (some "positive") none)
    (AnalyzeOutcome.ok (some "positive") none) rfl rfl

/-- C5 counterexample: at a state recording an earlier fetch success
(`initialConversationFetched = true`, log buffered, emotion stored), a
further fetch request — here the conversation-ended one — still performs a
new external `getConversationLog` call and does not return the cached
success outcome, where the claim requires a no-op returning it. -/
theorem fetch_idempotency_counterexample :
    postSuccessPanel.initialConversationFetched = true
    ∧ (fetchFullConversation postSuccessPanel FetchOutcome.thrown
        (AnalyzeOutcome.ok (some "positive") none)).2.2 = true
    ∧ (fetchFullConversation postSuccessPanel FetchOutcome.thrown
        (AnalyzeOutcome.ok (some "positive") none)).2.1 = false
    ∧ (handleConversationEnded postSuccessPanel FetchOutcome.thrown
        (AnalyzeOutcome.ok (some "positive") none)
        (AnalyzeOutcome.ok (some "positive") none)).2 = true := by
  decide

/-- C6: a persisted-record delivery seeds only when no emotion is set:
with a JS-truthy emotion already stored the delivery changes nothing, and
with none stored a truthy persisted emotion is stored lower-cased together
with the persisted reason (first write wins). -/
theorem wiredSession_seed_once (s : Panel) (pe : String) (pr : Option String) :
    (truthy s.emotion = true → ∀ d, wiredSession s d = s)
    ∧ (truthy s.emotion = false → pe ≠ "" →
        wiredSession s (some (some pe, pr)) =
          { s with emotion := some (jsToLower pe), reason := pr, loaded := true }) :=
  ⟨fun h d => wiredSession_already_set s d h,
   fun h hpe => wiredSession_seeds s pe pr h hpe⟩

/-- C6 witness: the seed-once theorem at a seeded state (delivery ignored)
and at the fresh base state (delivery seeds, lower-cased). -/
theorem wiredSession_seed_once_witness :
    wiredSession seededPanel (some (some "NEGATIVE", some "angry")) = seededPanel
    ∧ wiredSession basePanel (some (some "NEGATIVE", some "angry")) =
        { basePanel with emotion := some "negative", reason := some "angry", loaded := true } := by
  constructor
  · exact (wiredSession_seed_once seededPanel "NEGATIVE" (some "angry")).1 (by decide) _
  · have h := (wiredSession_seed_once basePanel "NEGATIVE" (some "angry")).2 (by decide) (by decide)
    rw [h]
    decide

/-- C7: every write to `emotion` stores exactly the lower-cased raw value:
`runAnalysis` stores the lower-cased response emotion (whatever it is) and
`wiredSession` stores the lower-cased persisted value; no restriction to a
four-value set and no mapping to `unknown` is applied anywhere. -/
theorem emotion_lowercased_unrestricted (s : Panel) (a : RunArgs) (em rs : Option String)
    (pe : String) (pr : Option String)
    (htext : jsTrim (jsOr a.overrideText (jsOr s.messages "")) ≠ "")
    (hpol : policyDenies a s.config = false) (hana : s._analyzing = false)
    (hemo : truthy s.emotion = false) (hpe : pe ≠ "") :
    (runAnalysis s a (AnalyzeOutcome.ok em rs)).1.emotion = some (jsToLower (jsOr em ""))
    ∧ (wiredSession s (some (some pe, pr))).emotion = some (jsToLower pe) := by
  constructor
  · rw [runAnalysis_proceeds s a (AnalyzeOutcome.ok em rs) htext hpol hana]
  · rw [wiredSession_seeds s pe pr hemo hpe]

/-- C7 witness: the lower-casing theorem at the base state with the raw
response emotion `HAPPY` and the persisted value `NEGATIVE`. -/
theorem emotion_lowercased_unrestricted_witness :
    (runAnalysis basePanel { force := true, context := "manual", overrideText := none }
        (AnalyzeOutcome.ok (some "HAPPY") none)).1.emotion
      = some (jsToLower (jsOr (some "HAPPY") ""))
    ∧ (wiredSession basePanel (some (some "NEGATIVE", none))).emotion
      = some (jsToLower "NEGATIVE") :=
  emotion_lowercased_unrestricted basePanel
    { force := true, context := "manual", overrideText := none }
    (some "HAPPY") none "NEGATIVE" none (by decide) (by decide) rfl rfl (by decide)

/-- The four-value emotion domain named by the specification. -/
def emotionDomain : List String := ["positive", "negative", "neutral", "unknown"]

/-- C7 counterexample: an unrecognized raw emotion `HAPPY` in a successful
analysis response is stored as `happy` — lower-cased but outside the
four-value domain and not mapped to `unknown`, where the claim requires
the stored value to lie in the domain. -/
theorem emotion_domain_counterexample :
    (runAnalysis basePanel { force := true, context := "manual", overrideText := none }
        (AnalyzeOutcome.ok (some "HAPPY") none)).1.emotion = some "happy"
    ∧ "happy" ∉ emotionDomain
    ∧ "happy" ≠ "unknown" := by
  decide

/-- C8: a subscribe throw is caught and records no handle, and a channel
already holding a handle is never re-subscribed; a handle-less receiving
channel is attempted on every invocation and a handle-less ended channel
whenever the receiving handle is held — but a throw of the receiving
subscribe aborts that whole invocation, so the ended channel is not
attempted in that round, and in the part_000 variant the render retry
fires only while the receiving channel lacks its handle. -/
theorem trySubscribe_retry_idempotent (s : Panel) (o1 o2 : SubscribeOutcome) :
    (s.receivingSubscription = none →
        trySubscribe s SubscribeOutcome.throws o2 = (s, true, false))
    ∧ (s.receivingSubscription = none → (trySubscribe s o1 o2).2.1 = true)
    ∧ (∀ h1, s.receivingSubscription = some h1 →
        (trySubscribe s o1 o2).1.receivingSubscription = some h1
        ∧ (trySubscribe s o1 o2).2.1 = false)
    ∧ (∀ h2, s.endedSubscription = some h2 →
        (trySubscribe s o1 o2).1.endedSubscription = some h2
        ∧ (trySubscribe s o1 o2).2.2 = false)
    ∧ (∀ h1, s.receivingSubscription = some h1 → s.endedSubscription = none →
        (trySubscribe s o1 o2).2.2 = true)
    ∧ (∀ h1, s.receivingSubscription = some h1 → renderedCallbackV0 s o1 o2 = s) :=
  ⟨fun h => trySubscribe_first_throws s o2 h,
   fun h => trySubscribe_receiving_attempted s o1 o2 h,
   fun h1 h => trySubscribe_receiving_held s o1 o2 h1 h,
   fun h2 h => trySubscribe_ended_held s o1 o2 h2 h,
   fun h1 hr he => trySubscribe_ended_attempted s o1 o2 h1 hr he,
   fun h1 hr => renderedCallbackV0_no_retry s o1 o2 h1 hr⟩

/-- C8 witness: the subscription theorem at the half-subscribed state: the
held receiving handle is kept untouched while the missing ended handle is
attempted. -/
theorem trySubscribe_retry_idempotent_witness :
    (trySubscribe halfSubscribedPanel (SubscribeOutcome.ok 4)
        (SubscribeOutcome.ok 5)).1.receivingSubscription = some 1
    ∧ (trySubscribe halfSubscribedPanel (SubscribeOutcome.ok 4)
        (SubscribeOutcome.ok 5)).2.1 = false
    ∧ (trySubscribe halfSubscribedPanel (SubscribeOutcome.ok 4)
        (SubscribeOutcome.ok 5)).2.2 = true :=
  have h := trySubscribe_retry_idempotent halfSubscribedPanel
    (SubscribeOutcome.ok 4) (SubscribeOutcome.ok 5)
  ⟨(h.2.2.1 1 rfl).1, (h.2.2.1 1 rfl).2, h.2.2.2.2.1 1 rfl rfl⟩

/-- C8 counterexample: two retry gaps the claim excludes. With both
handles missing and a receiving subscribe that throws, the invocation does
not attempt the ended channel at all (even though its subscribe would have
succeeded, no handle is recorded); and in the part_000 variant a render
opportunity at the half-subscribed state does not re-attempt the missing
ended channel, where the claim requires a re-subscribe of every
handle-less channel on each opportunity. -/
theorem trySubscribe_abort_counterexample :
    basePanel.receivingSubscription = none
    ∧ basePanel.endedSubscription = none
    ∧ trySubscribe basePanel SubscribeOutcome.throws (SubscribeOutcome.ok 7) =
        (basePanel, true, false)
    ∧ halfSubscribedPanel.endedSubscription = none
    ∧ renderedCallbackV0 halfSubscribedPanel (SubscribeOutcome.ok 9) (SubscribeOutcome.ok 10) =
        halfSubscribedPanel := by
  decide

/-- C9: a successful analysis whose response carries no usable emotion
field stores the empty string in `emotion`; `hasResult` is then false, so
a later persisted-record delivery overwrites the state this completed
live analysis left. -/
theorem runAnalysis_empty_emotion_overwritable (s : Panel) (a : RunArgs)
    (em rs : Option String) (pe : String) (pr : Option String)
    (htext : jsTrim (jsOr a.overrideText (jsOr s.messages "")) ≠ "")
    (hpol : policyDenies a s.config = false) (hana : s._analyzing = false)
    (hem : truthy em = false) (hpe : pe ≠ "") :
    (runAnalysis s a (AnalyzeOutcome.ok em rs)).1.emotion = some ""
    ∧ hasResult (runAnalysis s a (AnalyzeOutcome.ok em rs)).1 = false
    ∧ wiredSession (runAnalysis s a (AnalyzeOutcome.ok em rs)).1 (some (some pe, pr)) =
        { (runAnalysis s a (AnalyzeOutcome.ok em rs)).1 with
            emotion := some (jsToLower pe)
            reason := pr
            loaded := true } := by
  have he : jsToLower (jsOr em "") = "" := by
    rw [jsOr_of_not_truthy em "" hem]
    rfl
  have h1 : (runAnalysis s a (AnalyzeOutcome.ok em rs)).1.emotion = some "" := by
    rw [runAnalysis_proceeds s a (AnalyzeOutcome.ok em rs) htext hpol hana]
    dsimp only
    rw [he]
  have h2 : truthy (runAnalysis s a (AnalyzeOutcome.ok em rs)).1.emotion = false := by
    rw [h1]
    rfl
  exact ⟨h1, h2, wiredSession_seeds _ pe pr h2 hpe⟩

/-- C9 witness: the empty-emotion theorem at the base state with a forced
call, an emotion-less response and the persisted value `NEGATIVE`. -/
theorem runAnalysis_empty_emotion_overwritable_witness :
    (runAnalysis basePanel { force := true, context := "manual", overrideText := none }
        (AnalyzeOutcome.ok none none)).1.emotion = some ""
    ∧ hasResult (runAnalysis basePanel { force := true, context := "manual", overrideText := none }
        (AnalyzeOutcome.ok none none)).1 = false
    ∧ wiredSession
        (runAnalysis basePanel { force := true, context := "manual", overrideText := none }
          (AnalyzeOutcome.ok none none)).1
        (some (some "NEGATIVE", none)) =
        { (runAnalysis basePanel { force := true, context := "manual", overrideText := none }
            (AnalyzeOutcome.ok none none)).1 with
            emotion := some (jsToLower "NEGATIVE")
            reason := none
            loaded := true } :=
  runAnalysis_empty_emotion_overwritable basePanel
    { force := true, context := "manual", overrideText := none }
    none none "NEGATIVE" none (by decide) (by decide) rfl rfl (by decide)

/-- C10: with a buffered text that is non-empty but all whitespace, the
manual-calculate guard (which tests the untrimmed buffer) passes, and the
forced analysis returns on the empty-trimmed-text path: no external call
is made, no error is surfaced, and the only state change is
`loaded := true`. -/
theorem handleManualCalculate_whitespace (s : Panel) (o : AnalyzeOutcome) (w : String)
    (hm : s.messages = some w) (hw : w ≠ "") (htrim : jsTrim w = "") :
    handleManualCalculate s o = ({ s with loaded := true }, false) := by
  have ht : truthy s.messages = true := by
    rw [hm]
    simp [truthy, hw]
  have htext : jsTrim (jsOr none (jsOr s.messages "")) = "" := by
    rw [hm]
    simp [jsOr, hw, htrim]
  unfold handleManualCalculate
  rw [if_neg (by simp [ht])]
  dsimp only
  rw [runAnalysis_emptyText s { force := true, context := "manual", overrideText := none } o htext]

/-- C10 witness: the whitespace-buffer theorem at the concrete state with
buffer a single space. -/
theorem handleManualCalculate_whitespace_witness :
    handleManualCalculate whitespacePanel (AnalyzeOutcome.ok (some "positive") none) =
      ({ whitespacePanel with loaded := true }, false) :=
  handleManualCalculate_whitespace whitespacePanel
    (AnalyzeOutcome.ok (some "positive") none) " " rfl (by decide) (by decide)
